import Mathlib

/-!
Verification of the issue/merge-request lifecycle tracking engine of
SonarResolve: a shallow embedding of `sonar_tools/utils/project_db.py`
(`ProjectStatusDB`), `sonar_tools/service/sonar_service.py` (`SonarService`)
and `sonar_tools/service/mr_sync_service.py` (`MRStatusSyncService`).

Tables are embedded as lists of rows in insertion (rowid) order; SQL
`CURRENT_TIMESTAMP` is an explicit `now : Nat` argument; nullable columns are
`Option String`.  Python truthiness of an optional string (`if x:`) is
`pyTruthy`.
-/

namespace SonarResolve

/-- A row of the `sonar_issue` table.  The schema in `_init_database` declares
`sonar_issue_key` UNIQUE NOT NULL and `jira_task_key`, `jira_project_key`,
`sonar_project_key` NOT NULL; the service layer nevertheless passes `None`
for the last three, so they are embedded as `Option String` and the NOT NULL
constraint is enforced by `record_created_task` (the only insert path). -/
structure SonarIssueRow where
  sonar_issue_key : String
  jira_task_key : Option String
  jira_project_key : Option String
  sonar_project_key : Option String
  created_time : Nat
  updated_time : Nat
  deriving DecidableEq, Repr

/-- A row of the `mr_records` table. -/
structure MrRow where
  sonar_issue_key : String
  mr_url : String
  mr_iid : Option String
  mr_title : Option String
  mr_description : Option String
  branch_name : Option String
  source_branch : Option String
  target_branch : Option String
  mr_status : String
  rejection_reason : Option String
  submitted_time : Nat
  updated_time : Nat
  is_latest : Bool
  deriving DecidableEq, Repr

/-- The persistent store: the two tables the claims are about, rows kept in
rowid (insertion) order. -/
structure DB where
  sonar_issue : List SonarIssueRow
  mr_records : List MrRow
  deriving DecidableEq, Repr

def DB.empty : DB := ⟨[], []⟩

/-- Python truthiness of a nullable string: `None` and `""` are falsy. -/
def pyTruthy : Option String → Bool
  | none => false
  | some s => !s.isEmpty

/-- Python `str.strip()`: drop whitespace from both ends (embedded on the
code-point list so that proofs can evaluate it). -/
def pyStrip (s : String) : String :=
  ⟨((s.data.dropWhile Char.isWhitespace).reverse.dropWhile
      Char.isWhitespace).reverse⟩

/-- Python `str.split(sep)` for a one-character separator. -/
def pySplit (s : String) (sep : Char) : List String :=
  (s.data.splitOn sep).map (fun l => ⟨l⟩)

/-- Python `str.startswith(pre)`. -/
def pyStartsWith (s pre : String) : Bool :=
  pre.data.isPrefixOf s.data

/-- Python `c in s` for a one-character needle. -/
def pyContainsChar (s : String) (c : Char) : Bool :=
  s.data.contains c

/-- Python `str.lower()`. -/
def pyLower (s : String) : String :=
  ⟨s.data.map Char.toLower⟩

/-- Python `f"{x}"` rendering of a nullable string: `None` prints as "None". -/
def pyStr : Option String → String
  | none => "None"
  | some s => s

/-- Embedding of `ProjectStatusDB.record_created_task` (project_db.py lines 264-306):
`INSERT OR REPLACE INTO sonar_issue ...`.  When any of `jira_task_key`,
`jira_project_key`, `sonar_project_key` is NULL, the NOT NULL constraint
(which has no DEFAULT, so OR REPLACE falls back to ABORT) raises an
IntegrityError that the method catches and logs, leaving the table
unchanged.  Otherwise OR REPLACE deletes any row with the same unique
`sonar_issue_key` and appends the new row. -/
def record_created_task (db : DB) (now : Nat) (sonar_issue_key : String)
    (jira_task_key jira_project_key sonar_project_key : Option String) : DB :=
  match jira_task_key, jira_project_key, sonar_project_key with
  | some jt, some jp, some sp =>
      { db with sonar_issue :=
          db.sonar_issue.filter (fun r => !(r.sonar_issue_key == sonar_issue_key)) ++
            [{ sonar_issue_key := sonar_issue_key, jira_task_key := some jt,
               jira_project_key := some jp, sonar_project_key := some sp,
               created_time := now, updated_time := now }] }
  | _, _, _ => db

/-- Embedding of `ProjectStatusDB.is_task_created` (project_db.py lines 235-262):
`SELECT id FROM sonar_issue WHERE sonar_issue_key = ?` and a bare
existence test on the fetched row — the jira columns are not consulted. -/
def is_task_created (db : DB) (sonar_issue_key : String) : Bool :=
  db.sonar_issue.any (fun r => r.sonar_issue_key == sonar_issue_key)

/-- Embedding of `SonarService.is_issue_jira_task_created` (sonar_service.py lines
258-273): delegates to `is_task_created`; the surrounding try/except only
fires on exceptions, which the pure embedding has none of. -/
def is_issue_jira_task_created (db : DB) (sonar_issue_key : String) : Bool :=
  is_task_created db sonar_issue_key

/-- Embedding of `ProjectStatusDB.create_mr_record` (project_db.py lines 308-380): one
transaction that (1) sets `is_latest = FALSE, updated_time = now` on every
row of this issue that currently has `is_latest = TRUE`, then (2) appends
the new row with `is_latest = TRUE`; returns True (the pure embedding has
no SQL failures). -/
def create_mr_record (db : DB) (now : Nat) (sonar_issue_key mr_url : String)
    (mr_iid mr_title mr_description branch_name source_branch target_branch :
      Option String) (mr_status : String) : Bool × DB :=
  let cleared := db.mr_records.map (fun r =>
    if r.sonar_issue_key == sonar_issue_key && r.is_latest then
      { r with is_latest := false, updated_time := now }
    else r)
  (true, { db with mr_records := cleared ++
    [{ sonar_issue_key := sonar_issue_key, mr_url := mr_url, mr_iid := mr_iid,
       mr_title := mr_title, mr_description := mr_description,
       branch_name := branch_name, source_branch := source_branch,
       target_branch := target_branch, mr_status := mr_status,
       rejection_reason := none, submitted_time := now, updated_time := now,
       is_latest := true }] })

/-- Embedding of `ProjectStatusDB.update_mr_record_status` (project_db.py lines 382-428):
`if rejection_reason:` (Python truthiness, so `None` and `""` both take the
reason-less branch) chooses between an UPDATE that also sets
`rejection_reason` and one that sets only `mr_status` and `updated_time`;
returns whether any row matched `mr_url` (`cursor.rowcount > 0`). -/
def update_mr_record_status (db : DB) (now : Nat) (mr_url mr_status : String)
    (rejection_reason : Option String) : Bool × DB :=
  let matched := db.mr_records.any (fun r => r.mr_url == mr_url)
  if pyTruthy rejection_reason then
    (matched, { db with mr_records := db.mr_records.map (fun r =>
      if r.mr_url == mr_url then
        { r with mr_status := mr_status, rejection_reason := rejection_reason,
                 updated_time := now }
      else r) })
  else
    (matched, { db with mr_records := db.mr_records.map (fun r =>
      if r.mr_url == mr_url then
        { r with mr_status := mr_status, updated_time := now }
      else r) })

/-- Embedding of `ProjectStatusDB.get_latest_mr_record` (project_db.py lines 484-532):
`SELECT ... WHERE sonar_issue_key = ? AND is_latest = TRUE` and
`fetchone()` — the first matching row in rowid order. -/
def get_latest_mr_record (db : DB) (sonar_issue_key : String) : Option MrRow :=
  db.mr_records.find? (fun r => r.sonar_issue_key == sonar_issue_key && r.is_latest)

/-- Modelled from the spec: `getIssueBasicInfo(findingKey) → IssueRecord | null`
(spec §4.1).  `ProjectStatusDB.get_task_basic_info` is called by
`SonarService.create_sonar_issue_record` and by
`tests/test_update_jira_info.py`, but its implementation is not among the
provided sources; per the test it returns the stored row (jira fields
possibly null) or null when the finding is unknown. -/
def get_task_basic_info (db : DB) (sonar_issue_key : String) : Option SonarIssueRow :=
  db.sonar_issue.find? (fun r => r.sonar_issue_key == sonar_issue_key)

/-- Modelled from the spec: the backfill step of `ensureIssueTicket`
(spec §4.2, "backfills ticket fields on an existing placeholder").
`ProjectStatusDB.update_task_jira_info` is called by
`SonarService.create_sonar_issue_record` but its implementation is not among
the provided sources; it sets the two jira columns and `updated_time` on the
row of this finding and reports whether a row matched. -/
def update_task_jira_info (db : DB) (now : Nat)
    (sonar_issue_key jira_task_key jira_project_key : String) : Bool × DB :=
  (db.sonar_issue.any (fun r => r.sonar_issue_key == sonar_issue_key),
   { db with sonar_issue := db.sonar_issue.map (fun r =>
       if r.sonar_issue_key == sonar_issue_key then
         { r with jira_task_key := some jira_task_key,
                  jira_project_key := some jira_project_key,
                  updated_time := now }
       else r) })

/-- Embedding of `SonarService._parse_rule_config_file` (sonar_service.py lines 104-138):
per stripped line, skip blanks and `#` comments, strip an inline comment,
and keep the rule id when it contains a colon.  A Python `set` is embedded
as a deduplicated list. -/
def parse_rule_config_file (content : String) : List String :=
  (pySplit content '\n').foldl (fun rules line =>
    let line := pyStrip line
    if line.isEmpty || pyStartsWith line "#" then rules
    else
      let rule_id := pyStrip ((pySplit line '#').headD "")
      if pyContainsChar rule_id ':' && !(pyStartsWith rule_id " ") then
        if rules.contains rule_id then rules else rules ++ [rule_id]
      else rules) []

inductive RuleAction
  | enable
  | disable
  deriving DecidableEq, Repr

/-- Embedding of `SonarService._parse_override_config_file` (sonar_service.py lines
140-185): `ENABLE:`/`DISABLE:` prefixed lines carry an explicit action, a
bare line containing a colon is shorthand for DISABLE. -/
def parse_override_config_file (content : String) : List (RuleAction × String) :=
  (pySplit content '\n').foldl (fun rules line =>
    let line := pyStrip line
    if line.isEmpty || pyStartsWith line "#" then rules
    else
      let line_content := pyStrip ((pySplit line '#').headD "")
      if line_content.isEmpty then rules
      else if pyStartsWith line_content "ENABLE:" then
        let rule_id := pyStrip (line_content.drop 7)
        if rule_id.isEmpty then rules else rules ++ [(RuleAction.enable, rule_id)]
      else if pyStartsWith line_content "DISABLE:" then
        let rule_id := pyStrip (line_content.drop 8)
        if rule_id.isEmpty then rules else rules ++ [(RuleAction.disable, rule_id)]
      else if pyContainsChar line_content ':' && !(pyStartsWith line_content " ") then
        rules ++ [(RuleAction.disable, line_content)]
      else rules) []

/-- Embedding of `SonarService._load_excluded_rules` (sonar_service.py lines 42-102),
with the two config files given by content: base rules first, then each
override in order either force-enables (removing from the excluded set) or
disables (adding); the forced-enable set is threaded exactly as in the
source although it does not influence the final excluded set. -/
def load_excluded_rules (base_config override_config : String) : List String :=
  let excluded := parse_rule_config_file base_config
  let final := (parse_override_config_file override_config).foldl
    (fun (st : List String × List String) act =>
      match act.1 with
      | RuleAction.enable =>
          ((st.1.filter (fun r => !(r == act.2))),
           if st.2.contains act.2 then st.2 else st.2 ++ [act.2])
      | RuleAction.disable =>
          ((if st.1.contains act.2 then st.1 else st.1 ++ [act.2]),
           st.2.filter (fun r => !(r == act.2))))
    (excluded, [])
  final.1

/-- Embedding of `SonarService.is_rule_excluded` (sonar_service.py lines 187-200):
membership in the loaded excluded-rule set (the mtime-based reload is a
caching detail; the set is a parameter here). -/
def is_rule_excluded (excluded_rules : List String) (rule_id : String) : Bool :=
  excluded_rules.contains rule_id

/-- Embedding of `SonarService.create_sonar_issue_record` (sonar_service.py lines
202-256): if a record exists and both jira fields are falsy, backfill via
`update_task_jira_info` and return True on success; if a record exists with
any jira field truthy, return True without writing; otherwise (no record, or
a failed backfill falls through) insert via `record_created_task` and return
True. -/
def create_sonar_issue_record (db : DB) (now : Nat)
    (issue_key issue_project jira_task_key jira_project_key : String) : Bool × DB :=
  match get_task_basic_info db issue_key with
  | some existing_record =>
      if !(pyTruthy existing_record.jira_task_key) &&
         !(pyTruthy existing_record.jira_project_key) then
        let upd := update_task_jira_info db now issue_key jira_task_key jira_project_key
        if upd.1 then (true, upd.2)
        else (true, record_created_task upd.2 now issue_key (some jira_task_key)
          (some jira_project_key) (some issue_project))
      else (true, db)
  | none =>
      (true, record_created_task db now issue_key (some jira_task_key)
        (some jira_project_key) (some issue_project))

/-- Shape of the `current_status` entry of the decision result dictionary:
`{"excluded": True}`, `None`, or `{"has_task": True}`. -/
inductive CurrentStatus
  | null
  | excluded
  | hasTask
  deriving DecidableEq, Repr

/-- The result dictionary of `SonarService.is_issue_need_fix`. -/
structure NeedFixResult where
  need_fix : Bool
  reason : String
  current_status : CurrentStatus
  latest_mr : Option MrRow
  action_required : String
  deriving DecidableEq, Repr

/-- Cases 1-3 of `SonarService.is_issue_need_fix` (sonar_service.py lines
378-439), after the exclusion check: an unknown finding gets a null-field
initial record attempted (`record_created_task` with None jira fields) and
`need_fix = True`; a known finding without an MR needs fixing; a rejected
latest MR needs fixing, with `latest_mr.get("rejection_reason", "未知原因")`
rendering a stored NULL as "None" (the key is always present in the row
dictionary, so the default never fires); otherwise no fix is needed and the
action depends on whether the status is terminal. -/
def is_issue_need_fix_core (db : DB) (now : Nat) (sonar_issue_key : String) :
    NeedFixResult × DB :=
  if !(is_task_created db sonar_issue_key) then
    let db1 := record_created_task db now sonar_issue_key none none none
    ({ need_fix := true, reason := "未找到 issue 记录，已创建初始记录",
       current_status := CurrentStatus.null, latest_mr := none,
       action_required := "创建问题记录并开始修复流程" }, db1)
  else
    match get_latest_mr_record db sonar_issue_key with
    | none =>
        ({ need_fix := true, reason := "找到 issue 记录但未找到 mr 记录",
           current_status := CurrentStatus.hasTask, latest_mr := none,
           action_required := "开始修复并创建MR" }, db)
    | some latest_mr =>
        if latest_mr.mr_status == "rejected" then
          ({ need_fix := true,
             reason := "找到 issue 记录也找到 mr 记录，但 mr 被驳回: " ++
               pyStr latest_mr.rejection_reason,
             current_status := CurrentStatus.hasTask,
             latest_mr := some latest_mr,
             action_required := "根据驳回原因重新修复并提交新MR" }, db)
        else
          ({ need_fix := false,
             reason := "找到 issue 记录和 mr 记录，MR状态为: " ++ latest_mr.mr_status,
             current_status := CurrentStatus.hasTask,
             latest_mr := some latest_mr,
             action_required :=
               if latest_mr.mr_status == "merged" || latest_mr.mr_status == "closed"
               then "无需操作" else "等待MR处理结果" }, db)

/-- The case-0 guard of `is_issue_need_fix` (sonar_service.py line 368):
`if sonar_rule and self.is_rule_excluded(sonar_rule)` — a None or empty
rule string is falsy and skips the exclusion check. -/
def rule_guard (excluded_rules : List String) (sonar_rule : Option String) : Bool :=
  match sonar_rule with
  | some r => !r.isEmpty && is_rule_excluded excluded_rules r
  | none => false

/-- Embedding of `SonarService.is_issue_need_fix` (sonar_service.py lines 340-449):
case 0 (exclusion) followed by `is_issue_need_fix_core`. -/
def is_issue_need_fix (excluded_rules : List String) (db : DB) (now : Nat)
    (sonar_issue_key : String) (sonar_rule : Option String) : NeedFixResult × DB :=
  match sonar_rule with
  | some r =>
      if !r.isEmpty && is_rule_excluded excluded_rules r then
        ({ need_fix := false,
           reason := "规则 " ++ r ++ " 在排除列表中，不需要修复",
           current_status := CurrentStatus.excluded, latest_mr := none,
           action_required := "无需操作 - 规则已被排除" }, db)
      else is_issue_need_fix_core db now sonar_issue_key
  | none => is_issue_need_fix_core db now sonar_issue_key

/-! ## Reconciliation service (`mr_sync_service.py`) -/

/-- What the GitLab collaborator reports for one merge request: its state
string and (optionally) its merge status. -/
structure GitlabMr where
  state : String
  merge_status : Option String
  deriving DecidableEq, Repr

/-- Embedding of `MRStatusSyncService._map_gitlab_state_to_our_status` (mr_sync_service.py
lines 173-189): dictionary lookup on the lowercased state; unmapped states
yield None ("no update needed"). -/
def map_gitlab_state_to_our_status (gitlab_state : String) : Option String :=
  [("opened", "created"), ("merged", "merged"), ("closed", "closed")].lookup
    (pyLower gitlab_state)

/-- One staged update of `batch_update_mr_status`. -/
structure MrUpdate where
  mr_url : String
  mr_status : String
  rejection_reason : Option String
  deriving DecidableEq, Repr

/-- The per-record staging step of `MRStatusSyncService.sync_mr_status`
(mr_sync_service.py lines 107-133): map the reported state (the loop
lowercases `state` before the mapping lowercases it again); stage an update
only when the mapped status exists and differs from the stored one; when the
new status is "closed" and the reported merge status is truthy and does not
lowercase to "can_be_merged", carry a rejection reason quoting it. -/
def stage_mr_update (mr_url current_status : String) (gl : GitlabMr) :
    Option MrUpdate :=
  let gitlab_state := pyLower gl.state
  match map_gitlab_state_to_our_status gitlab_state with
  | some new_status =>
      if !(new_status == current_status) then
        some { mr_url := mr_url, mr_status := new_status,
               rejection_reason :=
                 if new_status == "closed" then
                   match gl.merge_status with
                   | some ms =>
                       if !ms.isEmpty && !(pyLower ms == "can_be_merged") then
                         some ("MR被关闭，合并状态: " ++ ms)
                       else none
                   | none => none
                 else none }
      else none
  | none => none

/-- The statuses the spec calls terminal (spec §8 and glossary). -/
def terminal_mr_statuses : List String := ["merged", "closed"]

/-- Modelled from the spec: `getPendingMrRecords(lookbackDays)` (spec §4.1),
"records with `status` not in a configurable terminal set, submitted within
the lookback window".  `ProjectStatusDB.get_pending_mr_records` is called by
`MRStatusSyncService.sync_mr_status` but its implementation is not among the
provided sources.  Timestamps are days here, so the window check is
`now - days_back ≤ submitted_time`. -/
def get_pending_mr_records (db : DB) (now days_back : Nat) : List MrRow :=
  db.mr_records.filter (fun r =>
    !(terminal_mr_statuses.contains r.mr_status) &&
      decide (now - days_back ≤ r.submitted_time))

/-- Modelled from the spec: `batchUpdateMrStatus(updates) → int` (spec §4.1),
"applies each update via the single-row path; partial failures do not abort
the batch", returning the count actually updated.
`ProjectStatusDB.batch_update_mr_status` is called by
`MRStatusSyncService.sync_mr_status` but its implementation is not among the
provided sources. -/
def batch_update_mr_status (db : DB) (now : Nat) (updates : List MrUpdate) :
    Nat × DB :=
  updates.foldl (fun (st : Nat × DB) u =>
    let one := update_mr_record_status st.2 now u.mr_url u.mr_status u.rejection_reason
    (if one.1 then st.1 + 1 else st.1, one.2)) (0, db)

/-- The result dictionary of `MRStatusSyncService.sync_mr_status`. -/
structure SyncResult where
  success : Bool
  error : Option String
  total_mrs : Nat
  updated_mrs : Nat
  failed_mrs : Nat
  deriving DecidableEq, Repr

/-- Embedding of `MRStatusSyncService.sync_mr_status` (mr_sync_service.py lines 35-171):
fail when the GitLab client is absent; fetch pending records and return a
zero success result when there are none; otherwise consult the collaborator
response (the dictionary returned by the batch query, embedded as a lookup
function), count records with no response as failed, stage updates for
changed states via `stage_mr_update`, and apply them through
`batch_update_mr_status`. -/
def sync_mr_status (db : DB) (now days_back : Nat)
    (gitlab_client : Option (String → Option GitlabMr)) : SyncResult × DB :=
  match gitlab_client with
  | none =>
      ({ success := false, error := some "GitLab客户端未初始化",
         total_mrs := 0, updated_mrs := 0, failed_mrs := 0 }, db)
  | some mr_status_data =>
      let pending_mrs := get_pending_mr_records db now days_back
      if pending_mrs.isEmpty then
        ({ success := true, error := none, total_mrs := 0,
           updated_mrs := 0, failed_mrs := 0 }, db)
      else
        let staged := pending_mrs.foldl
          (fun (st : List MrUpdate × Nat) mr =>
            match mr_status_data mr.mr_url with
            | none => (st.1, st.2 + 1)
            | some gl =>
                match stage_mr_update mr.mr_url mr.mr_status gl with
                | some upd => (st.1 ++ [upd], st.2)
                | none => st) ([], 0)
        let applied := batch_update_mr_status db now staged.1
        ({ success := true, error := none, total_mrs := pending_mrs.length,
           updated_mrs := staged.1.length, failed_mrs := staged.2 }, applied.2)

/-! ## Fallible interface for the error-fallback claim

`is_issue_need_fix` wraps its whole body in try/except; to state what the
except clause does, the body is embedded once more over an interface whose
operations may raise (`Except`), mirroring the call sequence of
sonar_service.py lines 366-439. -/

/-- The store/collaborator operations `is_issue_need_fix` performs, each
allowed to raise. -/
structure SonarDbOps where
  is_rule_excluded : String → Except String Bool
  is_task_created : String → Except String Bool
  record_created_task : String → Option String → Option String → Option String →
    Except String Unit
  get_latest_mr_record : String → Except String (Option MrRow)

/-- The body of `SonarService.is_issue_need_fix` (sonar_service.py lines
366-439) over fallible operations.  The inner try/except of lines 380-390
swallows a failure of the initial-record insert, so that call's result is
discarded either way; every other raise escapes the body. -/
def is_issue_need_fix_body (ops : SonarDbOps) (sonar_issue_key : String)
    (sonar_rule : Option String) : Except String NeedFixResult := do
  let excluded ←
    match sonar_rule with
    | some r => if r.isEmpty then pure false else ops.is_rule_excluded r
    | none => pure false
  if excluded then
    return { need_fix := false,
             reason := "规则 " ++ pyStr sonar_rule ++ " 在排除列表中，不需要修复",
             current_status := CurrentStatus.excluded, latest_mr := none,
             action_required := "无需操作 - 规则已被排除" }
  let created ← ops.is_task_created sonar_issue_key
  if !created then
    let _ := ops.record_created_task sonar_issue_key none none none
    return { need_fix := true, reason := "未找到 issue 记录，已创建初始记录",
             current_status := CurrentStatus.null, latest_mr := none,
             action_required := "创建问题记录并开始修复流程" }
  let latest ← ops.get_latest_mr_record sonar_issue_key
  match latest with
  | none =>
      return { need_fix := true, reason := "找到 issue 记录但未找到 mr 记录",
               current_status := CurrentStatus.hasTask, latest_mr := none,
               action_required := "开始修复并创建MR" }
  | some latest_mr =>
      if latest_mr.mr_status == "rejected" then
        return { need_fix := true,
                 reason := "找到 issue 记录也找到 mr 记录，但 mr 被驳回: " ++
                   pyStr latest_mr.rejection_reason,
                 current_status := CurrentStatus.hasTask,
                 latest_mr := some latest_mr,
                 action_required := "根据驳回原因重新修复并提交新MR" }
      else
        return { need_fix := false,
                 reason := "找到 issue 记录和 mr 记录，MR状态为: " ++
                   latest_mr.mr_status,
                 current_status := CurrentStatus.hasTask,
                 latest_mr := some latest_mr,
                 action_required :=
                   if latest_mr.mr_status == "merged" ||
                      latest_mr.mr_status == "closed"
                   then "无需操作" else "等待MR处理结果" }

/-- The public boundary of `is_issue_need_fix`: the surrounding try/except
(sonar_service.py lines 366 and 441-449) turns any raise into the
`need_fix = True` fallback dictionary with the error in the reason. -/
def is_issue_need_fix_total (ops : SonarDbOps) (sonar_issue_key : String)
    (sonar_rule : Option String) : NeedFixResult :=
  match is_issue_need_fix_body ops sonar_issue_key sonar_rule with
  | Except.ok r => r
  | Except.error e =>
      { need_fix := true, reason := "检查过程中发生错误: " ++ e,
        current_status := CurrentStatus.null, latest_mr := none,
        action_required := "检查系统状态并重试" }

/-! ## Call-sequence helpers for the `is_latest` invariant -/

/-- The arguments of one `create_mr_record` call (the timestamp the call is
made at included). -/
structure CreateMrArgs where
  now : Nat
  mr_url : String
  mr_iid : Option String
  mr_title : Option String
  mr_description : Option String
  branch_name : Option String
  source_branch : Option String
  target_branch : Option String
  mr_status : String
  deriving DecidableEq, Repr

/-- The row `create_mr_record` appends for a call with these arguments. -/
def new_mr_row (sonar_issue_key : String) (a : CreateMrArgs) : MrRow :=
  { sonar_issue_key := sonar_issue_key, mr_url := a.mr_url, mr_iid := a.mr_iid,
    mr_title := a.mr_title, mr_description := a.mr_description,
    branch_name := a.branch_name, source_branch := a.source_branch,
    target_branch := a.target_branch, mr_status := a.mr_status,
    rejection_reason := none, submitted_time := a.now, updated_time := a.now,
    is_latest := true }

/-- One `create_mr_record` call for a finding, keeping only the state. -/
def apply_create (sonar_issue_key : String) (db : DB) (a : CreateMrArgs) : DB :=
  (create_mr_record db a.now sonar_issue_key a.mr_url a.mr_iid a.mr_title
    a.mr_description a.branch_name a.source_branch a.target_branch a.mr_status).2

/-- A finite sequence of `create_mr_record` calls for one finding. -/
def apply_creates (sonar_issue_key : String) (db : DB)
    (calls : List CreateMrArgs) : DB :=
  calls.foldl (apply_create sonar_issue_key) db

/-- Rows of a finding that are flagged latest. -/
def latest_count (db : DB) (sonar_issue_key : String) : Nat :=
  db.mr_records.countP (fun r => r.sonar_issue_key == sonar_issue_key && r.is_latest)

/-- All rows of a finding. -/
def row_count (db : DB) (sonar_issue_key : String) : Nat :=
  db.mr_records.countP (fun r => r.sonar_issue_key == sonar_issue_key)

/-- The two jira columns of a finding's stored record, when one exists. -/
def ticket_fields (db : DB) (sonar_issue_key : String) :
    Option (Option String × Option String) :=
  (get_task_basic_info db sonar_issue_key).map
    (fun r => (r.jira_task_key, r.jira_project_key))

/-- Rows of a finding that are not flagged latest. -/
def non_latest_count (db : DB) (sonar_issue_key : String) : Nat :=
  db.mr_records.countP
    (fun r => r.sonar_issue_key == sonar_issue_key && !r.is_latest)

/-- Fixture: first sample `create_mr_record` call for the witnesses. -/
def sample_call_1 : CreateMrArgs :=
  { now := 1, mr_url := "https://host/mr/1", mr_iid := some "1",
    mr_title := none, mr_description := none, branch_name := none,
    source_branch := none, target_branch := none, mr_status := "created" }

/-- Fixture: second sample `create_mr_record` call for the witnesses. -/
def sample_call_2 : CreateMrArgs :=
  { now := 2, mr_url := "https://host/mr/2", mr_iid := some "2",
    mr_title := none, mr_description := none, branch_name := none,
    source_branch := none, target_branch := none, mr_status := "created" }

/-- Fixture: third sample `create_mr_record` call for the witnesses. -/
def sample_call_3 : CreateMrArgs :=
  { now := 3, mr_url := "https://host/mr/3", mr_iid := some "3",
    mr_title := none, mr_description := none, branch_name := none,
    source_branch := none, target_branch := none, mr_status := "created" }

/-- Fixture: a fully tracked issue row for finding "F1". -/
def sample_issue_row : SonarIssueRow :=
  { sonar_issue_key := "F1", jira_task_key := some "JIRA-9",
    jira_project_key := some "PROJ", sonar_project_key := some "test-project",
    created_time := 0, updated_time := 0 }

/-- Fixture: a placeholder issue row (null jira fields) for finding "F1". -/
def sample_placeholder_row : SonarIssueRow :=
  { sonar_issue_key := "F1", jira_task_key := none,
    jira_project_key := none, sonar_project_key := some "test-project",
    created_time := 0, updated_time := 0 }

/-- Fixture: a rejected latest MR row for finding "F1". -/
def sample_rejected_mr : MrRow :=
  { sonar_issue_key := "F1", mr_url := "https://host/mr/1",
    mr_iid := some "1", mr_title := none, mr_description := none,
    branch_name := none, source_branch := none, target_branch := none,
    mr_status := "rejected", rejection_reason := some "style violations",
    submitted_time := 0, updated_time := 0, is_latest := true }

/-- Fixture: a fully tracked finding with one rejected latest MR. -/
def sample_db_rejected : DB :=
  { sonar_issue := [sample_issue_row], mr_records := [sample_rejected_mr] }

/-- Fixture: fallible operations whose issue lookup raises. -/
def sample_failing_ops : SonarDbOps :=
  { is_rule_excluded := fun _ => Except.ok false,
    is_task_created := fun _ => Except.error "数据库连接失败",
    record_created_task := fun _ _ _ _ => Except.ok (),
    get_latest_mr_record := fun _ => Except.ok none }

/-! # Helper lemmas -/

theorem foldl_preserves {α β : Type} {P : β → Prop} {f : β → α → β}
    (l : List α) (b : β) (hb : P b) (h : ∀ b a, P b → P (f b a)) :
    P (l.foldl f b) := by
  induction l generalizing b with
  | nil => exact hb
  | cons x xs ih => exact ih (f b x) (h b x hb)

theorem string_contains_isEmpty_false (s : String) (c : Char)
    (h : pyContainsChar s c = true) : s.isEmpty = false := by
  cases he : s.isEmpty
  · rfl
  · exfalso
    have hs : s = "" := (String.isEmpty_iff s).mp he
    subst hs
    have hf : pyContainsChar "" c = false := rfl
    rw [h] at hf
    exact Bool.noConfusion hf

theorem parse_rule_config_file_nonempty (content : String) :
    ∀ x ∈ parse_rule_config_file content, x.isEmpty = false := by
  unfold parse_rule_config_file
  apply foldl_preserves
    (P := fun (rules : List String) => ∀ x ∈ rules, x.isEmpty = false)
  · intro x hx
    simp at hx
  · intro rules line hrules
    dsimp only
    repeat' split
    all_goals
      first
        | exact hrules
        | (intro x hx
           rcases List.mem_append.mp hx with h1 | h2
           · exact hrules x h1
           · have hx2 := List.mem_singleton.mp h2
             subst hx2
             rename_i hcond _
             exact string_contains_isEmpty_false _ _
               ((Bool.and_eq_true _ _).mp hcond).1)

theorem parse_override_config_file_nonempty (content : String) :
    ∀ x ∈ parse_override_config_file content,
      x.1 = RuleAction.disable → x.2.isEmpty = false := by
  unfold parse_override_config_file
  apply foldl_preserves
    (P := fun (rules : List (RuleAction × String)) =>
      ∀ x ∈ rules, x.1 = RuleAction.disable → x.2.isEmpty = false)
  · intro x hx
    simp at hx
  · intro rules line hrules
    dsimp only
    repeat' split
    all_goals
      try exact hrules
    all_goals
      intro x hx hdis
      rcases List.mem_append.mp hx with h1 | h2
      all_goals try exact hrules x h1 hdis
      all_goals
        have hx2 := List.mem_singleton.mp h2
        subst hx2
    · simp at hdis
    · rename_i hempty
      simpa using hempty
    · rename_i hcond
      exact string_contains_isEmpty_false _ _ ((Bool.and_eq_true _ _).mp hcond).1

theorem foldl_preserves_mem {α β : Type} {P : β → Prop} {f : β → α → β}
    (l : List α) : ∀ (b : β), P b → (∀ b a, a ∈ l → P b → P (f b a)) →
      P (l.foldl f b) := by
  induction l with
  | nil => intro b hb _; exact hb
  | cons x xs ih =>
      intro b hb h
      exact ih (f b x) (h b x (by simp) hb)
        (fun b2 a ha hb2 => h b2 a (by simp [ha]) hb2)

theorem load_excluded_rules_nonempty (base_config override_config : String) :
    ∀ x ∈ load_excluded_rules base_config override_config,
      x.isEmpty = false := by
  unfold load_excluded_rules
  dsimp only
  have hov := parse_override_config_file_nonempty override_config
  refine foldl_preserves_mem
    (P := fun (st : List String × List String) => ∀ x ∈ st.1, x.isEmpty = false)
    (parse_override_config_file override_config)
    (parse_rule_config_file base_config, [])
    (parse_rule_config_file_nonempty base_config) ?step
  case step =>
    intro st act hact hst
    rcases act with ⟨a, rid⟩
    cases a
    · intro x hx
      exact hst x (List.mem_filter.mp hx).1
    · dsimp only
      split
      · exact hst
      · intro x hx
        rcases List.mem_append.mp hx with h1 | h2
        · exact hst x h1
        · have hx2 := List.mem_singleton.mp h2
          rw [hx2]
          exact hov ⟨RuleAction.disable, rid⟩ hact rfl

/-! # Claim theorems -/

/-- C1: the spec (and `tests/test_update_jira_info.py`) says the
issue-resolved check is true only when both jira fields are non-null and
false on a placeholder-only record; the code's `is_task_created` is a bare
existence test that returns true on a placeholder row, and the NOT NULL
schema makes `record_created_task` silently drop the placeholder insert the
rest of the system relies on. -/
theorem is_task_created_ignores_ticket_fields :
    is_issue_jira_task_created
      { sonar_issue := [sample_placeholder_row], mr_records := [] } "F1" = true
    ∧ sample_placeholder_row.jira_task_key = none
    ∧ sample_placeholder_row.jira_project_key = none
    ∧ record_created_task DB.empty 0 "F1" none none (some "test-project") =
        DB.empty :=
  ⟨rfl, rfl, rfl, rfl⟩

/-- C4: evaluating an unseen, non-excluded finding does return
`need_fix = True` with the no-record reason, but the claimed placeholder
IssueRecord does not exist afterwards: the insert with null jira fields
violates the NOT NULL constraints and the error is swallowed, so the store
stays empty (contradicting `tests/test_auto_create_record.py`). -/
theorem evaluate_unseen_leaves_store_empty :
    (is_issue_need_fix [] DB.empty 0 "ISSUE-1" none).1.need_fix = true
    ∧ (is_issue_need_fix [] DB.empty 0 "ISSUE-1" none).1.reason =
        "未找到 issue 记录，已创建初始记录"
    ∧ ((is_issue_need_fix [] DB.empty 0 "ISSUE-1" none).2).sonar_issue = []
    ∧ (is_issue_need_fix [] DB.empty 0 "ISSUE-1" none).2 = DB.empty :=
  ⟨rfl, rfl, rfl, rfl⟩

/-- C6: a finding whose rule is in the configured exclusion set is reported
as not needing a fix and the store is left completely unchanged, even when
no record exists — the guard runs before any record creation, and every
member of a loaded exclusion set is a non-empty string, so the Python
truthiness test on the rule cannot skip the exclusion branch. -/
theorem excluded_rule_skips_and_preserves_store
    (base_config override_config : String) (db : DB) (now : Nat)
    (sonar_issue_key rule : String)
    (hr : rule ∈ load_excluded_rules base_config override_config) :
    is_issue_need_fix (load_excluded_rules base_config override_config) db now
        sonar_issue_key (some rule) =
      ({ need_fix := false,
         reason := "规则 " ++ rule ++ " 在排除列表中，不需要修复",
         current_status := CurrentStatus.excluded, latest_mr := none,
         action_required := "无需操作 - 规则已被排除" }, db) := by
  have hne : rule.isEmpty = false :=
    load_excluded_rules_nonempty base_config override_config rule hr
  unfold is_issue_need_fix is_rule_excluded
  simp [hne, hr]

/-- Witness for C6: a one-rule base config, an empty override config, an
empty store. -/
theorem excluded_rule_skips_and_preserves_store_witness :
    "java:S1234" ∈ load_excluded_rules "java:S1234" "" ∧
    is_issue_need_fix (load_excluded_rules "java:S1234" "") DB.empty 0 "F1"
        (some "java:S1234") =
      ({ need_fix := false,
         reason := "规则 " ++ "java:S1234" ++ " 在排除列表中，不需要修复",
         current_status := CurrentStatus.excluded, latest_mr := none,
         action_required := "无需操作 - 规则已被排除" }, DB.empty) :=
  ⟨by decide,
   excluded_rule_skips_and_preserves_store "java:S1234" "" DB.empty 0 "F1"
     "java:S1234" (by decide)⟩

theorem is_issue_need_fix_guard_false (excluded_rules : List String) (db : DB)
    (now : Nat) (sonar_issue_key : String) (sonar_rule : Option String)
    (hg : rule_guard excluded_rules sonar_rule = false) :
    is_issue_need_fix excluded_rules db now sonar_issue_key sonar_rule =
      is_issue_need_fix_core db now sonar_issue_key := by
  cases sonar_rule with
  | none => rfl
  | some r =>
      have hg2 : (!r.isEmpty && is_rule_excluded excluded_rules r) = false := hg
      unfold is_issue_need_fix
      simp [hg2]

/-- C5: with a record present and the rule not excluded, `is_issue_need_fix`
returns `need_fix = True` when no latest MR exists; `need_fix = True` with
the stored rejection reason inside the reason when the latest MR is
rejected; and `need_fix = False` otherwise, with "无需操作" (no action) for
merged/closed and the await-outcome action for created. -/
theorem evaluate_with_existing_record (excluded_rules : List String) (db : DB)
    (now : Nat) (sonar_issue_key : String) (sonar_rule : Option String)
    (hg : rule_guard excluded_rules sonar_rule = false)
    (hrec : is_task_created db sonar_issue_key = true) :
    ((get_latest_mr_record db sonar_issue_key = none →
       (is_issue_need_fix excluded_rules db now sonar_issue_key sonar_rule).1.need_fix
         = true)
     ∧ (∀ mr, get_latest_mr_record db sonar_issue_key = some mr →
         mr.mr_status = "rejected" →
         (is_issue_need_fix excluded_rules db now sonar_issue_key
             sonar_rule).1.need_fix = true
         ∧ ∀ rr, mr.rejection_reason = some rr →
             ∃ p, (is_issue_need_fix excluded_rules db now sonar_issue_key
                     sonar_rule).1.reason = p ++ rr)
     ∧ (∀ mr, get_latest_mr_record db sonar_issue_key = some mr →
         (mr.mr_status = "created" ∨ mr.mr_status = "merged" ∨
           mr.mr_status = "closed") →
         (is_issue_need_fix excluded_rules db now sonar_issue_key
             sonar_rule).1.need_fix = false
         ∧ (is_issue_need_fix excluded_rules db now sonar_issue_key
               sonar_rule).1.action_required =
             if mr.mr_status = "created" then "等待MR处理结果" else "无需操作")) := by
  rw [is_issue_need_fix_guard_false excluded_rules db now sonar_issue_key
    sonar_rule hg]
  refine ⟨?_, ?_, ?_⟩
  · intro hnone
    unfold is_issue_need_fix_core
    simp [hrec, hnone]
  · intro mr hmr hrej
    constructor
    · unfold is_issue_need_fix_core
      simp [hrec, hmr, hrej]
    · intro rr hrr
      refine ⟨"找到 issue 记录也找到 mr 记录，但 mr 被驳回: ", ?_⟩
      unfold is_issue_need_fix_core
      simp [hrec, hmr, hrej, pyStr, hrr]
  · intro mr hmr hst
    have hnrej : (mr.mr_status == "rejected") = false := by
      rcases hst with h | h | h <;> simp [h]
    constructor
    · unfold is_issue_need_fix_core
      simp [hrec, hmr, hnrej]
    · unfold is_issue_need_fix_core
      rcases hst with h | h | h <;> simp [hrec, hmr, hnrej, h]

/-- Witness for C5: the tracked finding "F1" with a rejected latest MR. -/
theorem evaluate_with_existing_record_witness :
    rule_guard [] none = false ∧
    is_task_created sample_db_rejected "F1" = true ∧
    (is_issue_need_fix [] sample_db_rejected 0 "F1" none).1.need_fix = true := by
  have h := evaluate_with_existing_record [] sample_db_rejected 0 "F1" none rfl
    (by decide)
  exact ⟨rfl, by decide, (h.2.1 sample_rejected_mr (by decide) rfl).1⟩

/-- C7: when the store yields no pending MR records, a reconciliation cycle
returns a success result with zero counts and an unchanged store, and the
result does not depend on the collaborator (the response map is universally
quantified and never consulted). -/
theorem empty_pending_sync_zero_effect (db : DB) (now days_back : Nat)
    (mr_status_data : String → Option GitlabMr)
    (h : get_pending_mr_records db now days_back = []) :
    sync_mr_status db now days_back (some mr_status_data) =
      ({ success := true, error := none, total_mrs := 0, updated_mrs := 0,
         failed_mrs := 0 }, db) := by
  unfold sync_mr_status
  simp [h]

/-- Witness for C7: an empty store. -/
theorem empty_pending_sync_zero_effect_witness :
    get_pending_mr_records DB.empty 10 7 = [] ∧
    sync_mr_status DB.empty 10 7 (some (fun _ => none)) =
      ({ success := true, error := none, total_mrs := 0, updated_mrs := 0,
         failed_mrs := 0 }, DB.empty) :=
  ⟨rfl, empty_pending_sync_zero_effect DB.empty 10 7 (fun _ => none) rfl⟩

/-- C9: a status update with no rejection reason supplied modifies only
`mr_status` and `updated_time` of the rows matching the url: every other
field — the stored `rejection_reason` in particular — is preserved
row-by-row, rows not matching the url are untouched, and the issue table is
untouched. -/
theorem reasonless_update_preserves_rejection_reason (db : DB) (now : Nat)
    (mr_url mr_status : String) :
    ((update_mr_record_status db now mr_url mr_status none).2).sonar_issue =
      db.sonar_issue
    ∧ List.Forall₂ (fun (r r2 : MrRow) =>
        r2.rejection_reason = r.rejection_reason
        ∧ r2.sonar_issue_key = r.sonar_issue_key
        ∧ r2.mr_url = r.mr_url
        ∧ r2.mr_iid = r.mr_iid
        ∧ r2.mr_title = r.mr_title
        ∧ r2.mr_description = r.mr_description
        ∧ r2.branch_name = r.branch_name
        ∧ r2.source_branch = r.source_branch
        ∧ r2.target_branch = r.target_branch
        ∧ r2.submitted_time = r.submitted_time
        ∧ r2.is_latest = r.is_latest
        ∧ (r.mr_url = mr_url → r2.mr_status = mr_status ∧ r2.updated_time = now)
        ∧ (¬r.mr_url = mr_url →
            r2.mr_status = r.mr_status ∧ r2.updated_time = r.updated_time))
      db.mr_records
      ((update_mr_record_status db now mr_url mr_status none).2).mr_records := by
  constructor
  · rfl
  · show List.Forall₂ _ db.mr_records (db.mr_records.map (fun r =>
      if r.mr_url == mr_url then
        { r with mr_status := mr_status, updated_time := now }
      else r))
    rw [List.forall₂_map_right_iff]
    rw [List.forall₂_same]
    intro r _
    by_cases hurl : r.mr_url = mr_url
    · simp [hurl]
    · have hb : (r.mr_url == mr_url) = false := by simp [hurl]
      simp [hb, hurl]

/-- Witness for C9: the sample store with a rejected MR, updated to merged
with no reason. -/
theorem reasonless_update_preserves_rejection_reason_witness :
    ((update_mr_record_status sample_db_rejected 5 "https://host/mr/1"
        "merged" none).2).sonar_issue = sample_db_rejected.sonar_issue
    ∧ List.Forall₂ (fun (r r2 : MrRow) =>
        r2.rejection_reason = r.rejection_reason
        ∧ r2.sonar_issue_key = r.sonar_issue_key
        ∧ r2.mr_url = r.mr_url
        ∧ r2.mr_iid = r.mr_iid
        ∧ r2.mr_title = r.mr_title
        ∧ r2.mr_description = r.mr_description
        ∧ r2.branch_name = r.branch_name
        ∧ r2.source_branch = r.source_branch
        ∧ r2.target_branch = r.target_branch
        ∧ r2.submitted_time = r.submitted_time
        ∧ r2.is_latest = r.is_latest
        ∧ (r.mr_url = "https://host/mr/1" →
            r2.mr_status = "merged" ∧ r2.updated_time = 5)
        ∧ (¬r.mr_url = "https://host/mr/1" →
            r2.mr_status = r.mr_status ∧ r2.updated_time = r.updated_time))
      sample_db_rejected.mr_records
      ((update_mr_record_status sample_db_rejected 5 "https://host/mr/1"
          "merged" none).2).mr_records :=
  reasonless_update_preserves_rejection_reason sample_db_rejected 5
    "https://host/mr/1" "merged"

theorem stage_mr_update_closed (mr_url current_status st : String)
    (ms : Option String) (hst : pyLower st = "closed")
    (hcur : (("closed" : String) == current_status) = false) :
    stage_mr_update mr_url current_status { state := st, merge_status := ms } =
      some { mr_url := mr_url, mr_status := "closed",
             rejection_reason :=
               match ms with
               | some m =>
                   if !m.isEmpty && !(pyLower m == "can_be_merged") then
                     some ("MR被关闭，合并状态: " ++ m)
                   else none
               | none => none } := by
  unfold stage_mr_update map_gitlab_state_to_our_status
  dsimp only
  rw [hst]
  have hlook : List.lookup (pyLower "closed")
      [("opened", "created"), ("merged", "merged"), ("closed", "closed")] =
      some ("closed" : String) := rfl
  rw [hlook]
  dsimp only
  rw [hcur]
  rfl

/-- C8 counterexample: the claim reads "non-mergeable" as any merge status
other than the exact string "can_be_merged" and promises a non-null
rejection reason for it, but the code lowercases before comparing, so a
record mapped to "closed" whose reported merge status is "CAN_BE_MERGED"
(which is not the string "can_be_merged") is staged with a null
rejection reason. -/
theorem closed_casing_rejection_counterexample :
    ("CAN_BE_MERGED" : String) ≠ "can_be_merged" ∧
    stage_mr_update "https://host/mr/1" "created"
        { state := "closed", merge_status := some "CAN_BE_MERGED" } =
      some { mr_url := "https://host/mr/1", mr_status := "closed",
             rejection_reason := none } :=
  ⟨by decide, rfl⟩

/-- C8 amended: the state mapping is exactly opened→created, merged→merged,
closed→closed; and a staged update for a record newly mapped to "closed"
carries a rejection reason quoting the reported merge status iff that
status is non-empty and does not equal "can_be_merged" case-insensitively,
and carries none otherwise. -/
theorem gitlab_state_mapping_and_closed_rejection
    (mr_url current_status st : String) (ms : Option String)
    (hst : pyLower st = "closed") (hcur : current_status ≠ "closed") :
    map_gitlab_state_to_our_status "opened" = some "created"
    ∧ map_gitlab_state_to_our_status "merged" = some "merged"
    ∧ map_gitlab_state_to_our_status "closed" = some "closed"
    ∧ (∀ m, ms = some m → m.isEmpty = false → pyLower m ≠ "can_be_merged" →
        stage_mr_update mr_url current_status { state := st, merge_status := ms } =
          some { mr_url := mr_url, mr_status := "closed",
                 rejection_reason := some ("MR被关闭，合并状态: " ++ m) })
    ∧ (∀ m, ms = some m → pyLower m = "can_be_merged" →
        stage_mr_update mr_url current_status { state := st, merge_status := ms } =
          some { mr_url := mr_url, mr_status := "closed",
                 rejection_reason := none })
    ∧ (ms = none →
        stage_mr_update mr_url current_status { state := st, merge_status := ms } =
          some { mr_url := mr_url, mr_status := "closed",
                 rejection_reason := none }) := by
  have hcur2 : (("closed" : String) == current_status) = false :=
    beq_eq_false_iff_ne.mpr (fun h => hcur h.symm)
  refine ⟨rfl, rfl, rfl, ?_, ?_, ?_⟩
  · intro m hm hme hml
    subst hm
    rw [stage_mr_update_closed mr_url current_status st (some m) hst hcur2]
    have hml2 : (pyLower m == "can_be_merged") = false := beq_eq_false_iff_ne.mpr hml
    simp [hme, hml2]
  · intro m hm hml
    subst hm
    rw [stage_mr_update_closed mr_url current_status st (some m) hst hcur2]
    simp [hml]
  · intro hm
    subst hm
    rw [stage_mr_update_closed mr_url current_status st none hst hcur2]

/-- Witness for C8: a closed MR whose merge status is "cannot_be_merged". -/
theorem gitlab_state_mapping_and_closed_rejection_witness :
    pyLower "closed" = "closed" ∧ ("created" : String) ≠ "closed" ∧
    stage_mr_update "https://host/mr/1" "created"
        { state := "closed", merge_status := some "cannot_be_merged" } =
      some { mr_url := "https://host/mr/1", mr_status := "closed",
             rejection_reason :=
               some ("MR被关闭，合并状态: " ++ "cannot_be_merged") } := by
  refine ⟨rfl, by decide, ?_⟩
  exact (gitlab_state_mapping_and_closed_rejection "https://host/mr/1" "created"
    "closed" (some "cannot_be_merged") rfl (by decide)).2.2.2.1
    "cannot_be_merged" rfl rfl (by decide)

/-- C10: the public boundary of `is_issue_need_fix` is total — the body's
result is returned unchanged when it succeeds, and any internal error is
turned into the `need_fix = True` fail-open fallback whose reason carries
the error text; no exception propagates. -/
theorem is_issue_need_fix_total_boundary (ops : SonarDbOps)
    (sonar_issue_key : String) (sonar_rule : Option String) :
    (∀ r, is_issue_need_fix_body ops sonar_issue_key sonar_rule = Except.ok r →
      is_issue_need_fix_total ops sonar_issue_key sonar_rule = r)
    ∧ (∀ e, is_issue_need_fix_body ops sonar_issue_key sonar_rule =
          Except.error e →
        (is_issue_need_fix_total ops sonar_issue_key sonar_rule).need_fix = true
        ∧ (is_issue_need_fix_total ops sonar_issue_key sonar_rule).reason =
            "检查过程中发生错误: " ++ e) := by
  constructor
  · intro r h
    unfold is_issue_need_fix_total
    rw [h]
  · intro e h
    unfold is_issue_need_fix_total
    rw [h]
    exact ⟨rfl, rfl⟩

/-- Witness for C10: operations whose issue lookup raises. -/
theorem is_issue_need_fix_total_boundary_witness :
    is_issue_need_fix_body sample_failing_ops "F1" none =
      Except.error "数据库连接失败"
    ∧ (is_issue_need_fix_total sample_failing_ops "F1" none).need_fix = true
    ∧ (is_issue_need_fix_total sample_failing_ops "F1" none).reason =
        "检查过程中发生错误: " ++ "数据库连接失败" := by
  refine ⟨rfl, ?_⟩
  exact (is_issue_need_fix_total_boundary sample_failing_ops "F1" none).2
    "数据库连接失败" rfl

theorem apply_create_mr_records (sonar_issue_key : String) (db : DB)
    (a : CreateMrArgs) :
    (apply_create sonar_issue_key db a).mr_records =
      db.mr_records.map (fun r =>
        if r.sonar_issue_key == sonar_issue_key && r.is_latest then
          { r with is_latest := false, updated_time := a.now }
        else r) ++ [new_mr_row sonar_issue_key a] := rfl

theorem cleared_rows_not_latest (sonar_issue_key : String) (now : Nat)
    (l : List MrRow) :
    ∀ r ∈ l.map (fun r =>
        if r.sonar_issue_key == sonar_issue_key && r.is_latest then
          { r with is_latest := false, updated_time := now }
        else r),
      (r.sonar_issue_key == sonar_issue_key && r.is_latest) = false := by
  intro r hr
  rcases List.mem_map.mp hr with ⟨s, _, rfl⟩
  by_cases h : (s.sonar_issue_key == sonar_issue_key && s.is_latest) = true
  · simp only [if_pos h]
    simp
  · simp only [if_neg h]
    simpa using h

theorem latest_count_apply_create (sonar_issue_key : String) (db : DB)
    (a : CreateMrArgs) :
    latest_count (apply_create sonar_issue_key db a) sonar_issue_key = 1 := by
  unfold latest_count
  rw [apply_create_mr_records, List.countP_append]
  have h1 : (db.mr_records.map (fun r =>
      if r.sonar_issue_key == sonar_issue_key && r.is_latest then
        { r with is_latest := false, updated_time := a.now }
      else r)).countP
        (fun r => r.sonar_issue_key == sonar_issue_key && r.is_latest) = 0 := by
    apply List.countP_eq_zero.mpr
    intro r hr
    have := cleared_rows_not_latest sonar_issue_key a.now db.mr_records r hr
    simp [this]
  rw [h1]
  simp [new_mr_row, List.countP_cons]

theorem get_latest_apply_create (sonar_issue_key : String) (db : DB)
    (a : CreateMrArgs) :
    get_latest_mr_record (apply_create sonar_issue_key db a) sonar_issue_key =
      some (new_mr_row sonar_issue_key a) := by
  unfold get_latest_mr_record
  rw [apply_create_mr_records, List.find?_append]
  have h1 : (db.mr_records.map (fun r =>
      if r.sonar_issue_key == sonar_issue_key && r.is_latest then
        { r with is_latest := false, updated_time := a.now }
      else r)).find?
        (fun r => r.sonar_issue_key == sonar_issue_key && r.is_latest) = none := by
    apply List.find?_eq_none.mpr
    intro r hr hp
    have := cleared_rows_not_latest sonar_issue_key a.now db.mr_records r hr
    rw [hp] at this
    exact Bool.noConfusion this
  rw [h1]
  simp [new_mr_row, List.find?]

theorem row_count_apply_create (sonar_issue_key : String) (db : DB)
    (a : CreateMrArgs) :
    row_count (apply_create sonar_issue_key db a) sonar_issue_key =
      row_count db sonar_issue_key + 1 := by
  unfold row_count
  rw [apply_create_mr_records, List.countP_append, List.countP_map]
  have h1 : ((fun (r : MrRow) => r.sonar_issue_key == sonar_issue_key) ∘
      (fun r =>
        if r.sonar_issue_key == sonar_issue_key && r.is_latest then
          { r with is_latest := false, updated_time := a.now }
        else r)) =
      (fun (r : MrRow) => r.sonar_issue_key == sonar_issue_key) := by
    funext r
    by_cases h : (r.sonar_issue_key == sonar_issue_key && r.is_latest) = true
    · simp only [Function.comp, if_pos h]
    · simp only [Function.comp, if_neg h]
  rw [h1]
  simp [new_mr_row, List.countP_cons]

theorem non_latest_count_apply_create (sonar_issue_key : String) (db : DB)
    (a : CreateMrArgs) :
    non_latest_count (apply_create sonar_issue_key db a) sonar_issue_key =
      row_count db sonar_issue_key := by
  unfold non_latest_count row_count
  rw [apply_create_mr_records, List.countP_append, List.countP_map]
  have h1 : ((fun (r : MrRow) =>
      r.sonar_issue_key == sonar_issue_key && !r.is_latest) ∘
      (fun r =>
        if r.sonar_issue_key == sonar_issue_key && r.is_latest then
          { r with is_latest := false, updated_time := a.now }
        else r)) =
      (fun (r : MrRow) => r.sonar_issue_key == sonar_issue_key) := by
    funext r
    by_cases hk : (r.sonar_issue_key == sonar_issue_key) = true
    · by_cases hl : r.is_latest = true
      · simp [Function.comp, hk, hl]
      · have hl2 : r.is_latest = false := by simpa using hl
        simp [Function.comp, hk, hl2]
    · have hk2 : (r.sonar_issue_key == sonar_issue_key) = false := by
        simpa using hk
      simp [Function.comp, hk2]
  rw [h1]
  simp [new_mr_row, List.countP_cons]

theorem apply_creates_append (sonar_issue_key : String) (db : DB)
    (rest : List CreateMrArgs) (a : CreateMrArgs) :
    apply_creates sonar_issue_key db (rest ++ [a]) =
      apply_create sonar_issue_key (apply_creates sonar_issue_key db rest) a := by
  unfold apply_creates
  rw [List.foldl_append]
  rfl

theorem row_count_apply_creates (sonar_issue_key : String) (db : DB)
    (calls : List CreateMrArgs) :
    row_count (apply_creates sonar_issue_key db calls) sonar_issue_key =
      row_count db sonar_issue_key + calls.length := by
  induction calls generalizing db with
  | nil => rfl
  | cons c cs ih =>
      show row_count
        (apply_creates sonar_issue_key (apply_create sonar_issue_key db c) cs)
        sonar_issue_key = _
      rw [ih, row_count_apply_create]
      simp [Nat.add_assoc, Nat.add_comm]

/-- C2: starting from a store with no MR rows for the finding, any finite
sequence of `create_mr_record` calls leaves exactly one `is_latest = true`
row when at least one call was made (zero when none were), a total of one
row per call (so all but the last are `is_latest = false`), and
`get_latest_mr_record` returns exactly the row of the most recent call. -/
theorem create_mr_record_latest_invariant (db : DB) (sonar_issue_key : String)
    (calls : List CreateMrArgs)
    (h0 : row_count db sonar_issue_key = 0) :
    latest_count (apply_creates sonar_issue_key db calls) sonar_issue_key =
      (if calls = [] then 0 else 1)
    ∧ row_count (apply_creates sonar_issue_key db calls) sonar_issue_key =
        calls.length
    ∧ non_latest_count (apply_creates sonar_issue_key db calls) sonar_issue_key =
        calls.length - 1
    ∧ (∀ rest a, calls = rest ++ [a] →
        get_latest_mr_record (apply_creates sonar_issue_key db calls)
          sonar_issue_key = some (new_mr_row sonar_issue_key a)) := by
  rcases List.eq_nil_or_concat calls with hnil | ⟨rest, a, hcat⟩
  · subst hnil
    have hle : latest_count db sonar_issue_key = 0 := by
      have := List.countP_mono_left
        (l := db.mr_records)
        (p := fun r => r.sonar_issue_key == sonar_issue_key && r.is_latest)
        (q := fun r => r.sonar_issue_key == sonar_issue_key)
        (by intro r _ hp; exact ((Bool.and_eq_true _ _).mp hp).1)
      unfold latest_count
      unfold row_count at h0
      omega
    have hle2 : non_latest_count db sonar_issue_key = 0 := by
      have := List.countP_mono_left
        (l := db.mr_records)
        (p := fun r => r.sonar_issue_key == sonar_issue_key && !r.is_latest)
        (q := fun r => r.sonar_issue_key == sonar_issue_key)
        (by intro r _ hp; exact ((Bool.and_eq_true _ _).mp hp).1)
      unfold non_latest_count
      unfold row_count at h0
      omega
    refine ⟨by simpa using hle, by simpa using h0, by simpa using hle2, ?_⟩
    intro rest a heq
    exact absurd heq.symm (List.append_ne_nil_of_right_ne_nil rest (by simp))
  · rw [List.concat_eq_append] at hcat
    subst hcat
    rw [apply_creates_append]
    have hne : rest ++ [a] ≠ [] :=
      List.append_ne_nil_of_right_ne_nil rest (by simp)
    refine ⟨?_, ?_, ?_, ?_⟩
    · rw [latest_count_apply_create]
      simp [hne]
    · rw [row_count_apply_create, row_count_apply_creates, h0]
      simp
    · rw [non_latest_count_apply_create, row_count_apply_creates, h0]
      simp
    · intro rest2 a2 heq
      have ha : a2 = a := by
        have h1 : (rest2 ++ [a2]).getLast? = some a2 := List.getLast?_concat rest2
        have h2 : (rest ++ [a]).getLast? = some a := List.getLast?_concat rest
        rw [← heq] at h1
        rw [h2] at h1
        exact (Option.some_inj.mp h1).symm
      subst ha
      exact get_latest_apply_create sonar_issue_key
        (apply_creates sonar_issue_key db rest) a2

/-- Witness for C2: three successive calls on an empty store leave one
latest row, three rows in total (hence two non-latest), and the third call's
row as the latest record. -/
theorem create_mr_record_latest_invariant_witness :
    row_count DB.empty "F1" = 0
    ∧ latest_count (apply_creates "F1" DB.empty
        [sample_call_1, sample_call_2, sample_call_3]) "F1" = 1
    ∧ row_count (apply_creates "F1" DB.empty
        [sample_call_1, sample_call_2, sample_call_3]) "F1" = 3
    ∧ non_latest_count (apply_creates "F1" DB.empty
        [sample_call_1, sample_call_2, sample_call_3]) "F1" = 2
    ∧ get_latest_mr_record (apply_creates "F1" DB.empty
        [sample_call_1, sample_call_2, sample_call_3]) "F1" =
        some (new_mr_row "F1" sample_call_3) := by
  have h := create_mr_record_latest_invariant DB.empty "F1"
    [sample_call_1, sample_call_2, sample_call_3] rfl
  refine ⟨rfl, ?_, ?_, ?_, ?_⟩
  · simpa using h.1
  · simpa using h.2.1
  · simpa using h.2.2.1
  · exact h.2.2.2 [sample_call_1, sample_call_2] sample_call_3 rfl

theorem create_sonar_issue_record_fst (db : DB) (now : Nat)
    (issue_key issue_project jira_task_key jira_project_key : String) :
    (create_sonar_issue_record db now issue_key issue_project jira_task_key
      jira_project_key).1 = true := by
  unfold create_sonar_issue_record
  cases hget : get_task_basic_info db issue_key
  · rfl
  · dsimp only
    split
    · split <;> rfl
    · rfl

theorem get_basic_after_insert (db : DB) (now : Nat) (sonar_issue_key : String)
    (jt jp sp : String) :
    get_task_basic_info
        (record_created_task db now sonar_issue_key (some jt) (some jp) (some sp))
        sonar_issue_key =
      some { sonar_issue_key := sonar_issue_key, jira_task_key := some jt,
             jira_project_key := some jp, sonar_project_key := some sp,
             created_time := now, updated_time := now } := by
  unfold get_task_basic_info record_created_task
  dsimp only
  rw [List.find?_append]
  have h1 : (db.sonar_issue.filter
      (fun r => !(r.sonar_issue_key == sonar_issue_key))).find?
        (fun r => r.sonar_issue_key == sonar_issue_key) = none := by
    apply List.find?_eq_none.mpr
    intro r hr hp
    have h2 := (List.mem_filter.mp hr).2
    rw [hp] at h2
    exact Bool.noConfusion h2
  rw [h1]
  rw [Option.none_or]
  exact List.find?_cons_of_pos _ (by simp)

theorem get_basic_after_update (db : DB) (now : Nat)
    (sonar_issue_key jt jp : String) :
    get_task_basic_info ((update_task_jira_info db now sonar_issue_key jt jp).2)
        sonar_issue_key =
      (get_task_basic_info db sonar_issue_key).map (fun r =>
        { r with jira_task_key := some jt, jira_project_key := some jp,
                 updated_time := now }) := by
  unfold get_task_basic_info update_task_jira_info
  dsimp only
  rw [List.find?_map]
  have h1 : ((fun (r : SonarIssueRow) => r.sonar_issue_key == sonar_issue_key) ∘
      (fun r =>
        if r.sonar_issue_key == sonar_issue_key then
          { r with jira_task_key := some jt, jira_project_key := some jp,
                   updated_time := now }
        else r)) =
      (fun (r : SonarIssueRow) => r.sonar_issue_key == sonar_issue_key) := by
    funext r
    by_cases h : (r.sonar_issue_key == sonar_issue_key) = true
    · simp only [Function.comp, if_pos h]
    · simp only [Function.comp, if_neg h]
  rw [h1]
  cases hf : db.sonar_issue.find?
      (fun r => r.sonar_issue_key == sonar_issue_key) with
  | none => rfl
  | some r =>
      have hp := List.find?_some hf
      simp only [Option.map]
      rw [if_pos hp]

theorem update_task_jira_info_fst (db : DB) (now : Nat)
    (sonar_issue_key jt jp : String) :
    (update_task_jira_info db now sonar_issue_key jt jp).1 =
      is_task_created db sonar_issue_key := rfl

theorem is_task_created_eq_isSome (db : DB) (sonar_issue_key : String) :
    is_task_created db sonar_issue_key =
      (get_task_basic_info db sonar_issue_key).isSome := by
  unfold is_task_created get_task_basic_info
  cases hf : db.sonar_issue.find?
      (fun r => r.sonar_issue_key == sonar_issue_key) with
  | none =>
      simp only [Option.isSome_none]
      apply List.any_eq_false.mpr
      intro r hr
      have := List.find?_eq_none.mp hf r hr
      simpa using this
  | some r =>
      have hmem := List.mem_of_find?_eq_some hf
      have hp := List.find?_some hf
      simp only [Option.isSome_some]
      exact List.any_eq_true.mpr ⟨r, hmem, hp⟩

theorem create_establishes (db : DB) (now : Nat)
    (issue_key issue_project jt jp : String) :
    ∃ r1, get_task_basic_info
        (create_sonar_issue_record db now issue_key issue_project jt jp).2
        issue_key = some r1
      ∧ ((r1.jira_task_key = some jt ∧ r1.jira_project_key = some jp)
         ∨ (pyTruthy r1.jira_task_key || pyTruthy r1.jira_project_key) = true) := by
  unfold create_sonar_issue_record
  cases hget : get_task_basic_info db issue_key with
  | none =>
      dsimp only
      refine ⟨_, get_basic_after_insert db now issue_key jt jp issue_project, ?_⟩
      exact Or.inl ⟨rfl, rfl⟩
  | some r =>
      dsimp only
      by_cases hb : (!(pyTruthy r.jira_task_key) &&
          !(pyTruthy r.jira_project_key)) = true
      · rw [if_pos hb]
        have hfst : (update_task_jira_info db now issue_key jt jp).1 = true := by
          rw [update_task_jira_info_fst, is_task_created_eq_isSome, hget]
          rfl
        rw [hfst]
        simp only [if_true]
        refine ⟨{ r with jira_task_key := some jt,
                         jira_project_key := some jp,
                         updated_time := now }, ?_, ?_⟩
        · rw [get_basic_after_update, hget]
          rfl
        · exact Or.inl ⟨rfl, rfl⟩
      · rw [if_neg hb]
        refine ⟨r, hget, Or.inr ?_⟩
        rcases Bool.and_eq_false_iff.mp (Bool.eq_false_iff.mpr hb) with h | h
        · have : pyTruthy r.jira_task_key = true := by
            cases hx : pyTruthy r.jira_task_key
            · rw [hx] at h; exact Bool.noConfusion h
            · rfl
          simp [this]
        · have : pyTruthy r.jira_project_key = true := by
            cases hx : pyTruthy r.jira_project_key
            · rw [hx] at h; exact Bool.noConfusion h
            · rfl
          simp [this]

theorem create_snd_ticket_fields (d : DB) (now : Nat)
    (issue_key issue_project jt jp : String) (r : SonarIssueRow)
    (hr : get_task_basic_info d issue_key = some r)
    (hcase : (r.jira_task_key = some jt ∧ r.jira_project_key = some jp)
      ∨ (pyTruthy r.jira_task_key || pyTruthy r.jira_project_key) = true) :
    ticket_fields (create_sonar_issue_record d now issue_key issue_project
        jt jp).2 issue_key =
      ticket_fields d issue_key := by
  unfold create_sonar_issue_record
  rw [hr]
  dsimp only
  by_cases hb : (!(pyTruthy r.jira_task_key) &&
      !(pyTruthy r.jira_project_key)) = true
  · rw [if_pos hb]
    have hfst : (update_task_jira_info d now issue_key jt jp).1 = true := by
      rw [update_task_jira_info_fst, is_task_created_eq_isSome, hr]
      rfl
    rw [hfst]
    simp only [if_true]
    have hfields : r.jira_task_key = some jt ∧ r.jira_project_key = some jp := by
      rcases hcase with h | h
      · exact h
      · exfalso
        rcases (Bool.and_eq_true _ _).mp hb with ⟨h1, h2⟩
        rcases Bool.or_eq_true_iff.mp h with h3 | h3
        · rw [h3] at h1; exact Bool.noConfusion h1
        · rw [h3] at h2; exact Bool.noConfusion h2
    unfold ticket_fields
    rw [get_basic_after_update, hr]
    simp [hfields.1, hfields.2]
  · rw [if_neg hb]

/-- C3: `create_sonar_issue_record` (the `ensureIssueTicket` operation) is
idempotent — both calls with the same arguments report success, the second
call leaves the stored ticket fields unchanged, and a record whose ticket
fields are already populated is never overwritten (the evaluation returns
success with the store untouched). -/
theorem create_sonar_issue_record_idempotent (db : DB) (now1 now2 : Nat)
    (issue_key issue_project jira_task_key jira_project_key : String) :
    (create_sonar_issue_record db now1 issue_key issue_project jira_task_key
      jira_project_key).1 = true
    ∧ (create_sonar_issue_record
        (create_sonar_issue_record db now1 issue_key issue_project
          jira_task_key jira_project_key).2 now2 issue_key issue_project
        jira_task_key jira_project_key).1 = true
    ∧ ticket_fields (create_sonar_issue_record
        (create_sonar_issue_record db now1 issue_key issue_project
          jira_task_key jira_project_key).2 now2 issue_key issue_project
        jira_task_key jira_project_key).2 issue_key =
      ticket_fields (create_sonar_issue_record db now1 issue_key issue_project
        jira_task_key jira_project_key).2 issue_key
    ∧ (∀ row, get_task_basic_info db issue_key = some row →
        pyTruthy row.jira_task_key = true →
        pyTruthy row.jira_project_key = true →
        (create_sonar_issue_record db now1 issue_key issue_project
          jira_task_key jira_project_key).2 = db) := by
  refine ⟨create_sonar_issue_record_fst db now1 issue_key issue_project
      jira_task_key jira_project_key,
    create_sonar_issue_record_fst _ now2 issue_key issue_project
      jira_task_key jira_project_key, ?_, ?_⟩
  · obtain ⟨r1, hr1, hc⟩ := create_establishes db now1 issue_key issue_project
      jira_task_key jira_project_key
    exact create_snd_ticket_fields _ now2 issue_key issue_project jira_task_key
      jira_project_key r1 hr1 hc
  · intro row hrow ht1 ht2
    unfold create_sonar_issue_record
    rw [hrow]
    dsimp only
    rw [if_neg (by simp [ht1, ht2])]

/-- Witness for C3: a fresh finding recorded twice with the same ticket. -/
theorem create_sonar_issue_record_idempotent_witness :
    (create_sonar_issue_record DB.empty 1 "F1" "test-project" "JIRA-9"
      "PROJ").1 = true
    ∧ (create_sonar_issue_record
        (create_sonar_issue_record DB.empty 1 "F1" "test-project" "JIRA-9"
          "PROJ").2 2 "F1" "test-project" "JIRA-9" "PROJ").1 = true
    ∧ ticket_fields (create_sonar_issue_record
        (create_sonar_issue_record DB.empty 1 "F1" "test-project" "JIRA-9"
          "PROJ").2 2 "F1" "test-project" "JIRA-9" "PROJ").2 "F1" =
      ticket_fields (create_sonar_issue_record DB.empty 1 "F1" "test-project"
        "JIRA-9" "PROJ").2 "F1" := by
  have h := create_sonar_issue_record_idempotent DB.empty 1 2 "F1"
    "test-project" "JIRA-9" "PROJ"
  exact ⟨h.1, h.2.1, h.2.2.1⟩

end SonarResolve
